import Mathlib

/-!
Verification development for the blinkcore pixel driver
(`src/cores/blinkcore/pixel.cpp`): a shallow embedding of the pixel color
store, the 5-phase multiplexing interrupt handler, the blue charge-pump
handshake and the lifecycle entry points, with theorems about the
specification's claims.

Modelling conventions:
* 8-bit machine values are `Nat`, with an explicit `% 256` wherever the C
  increment of a `uint8_t` could overflow.
* Hardware registers (OCR/TCNT/TCCR/TIMSK) are `Nat` fields of an explicit
  state record.  Pin levels are `Bool` fields: `blueSink = true` means the
  blue charge-pump sink output is driven high (pump idle / LED path off),
  `false` means it is driven low (pump charging).  `anodes i = true` means
  pixel `i`'s anode line is driven high.  Pin-direction (DDR) setup and the
  R/G/B cathode PORT bits written once in `setupPixelPins` are not part of
  any claim and are not modelled.
* The C arrays `rawValueR/G/B` are `Fin 6 → Nat`.  Array accesses whose C
  index is not statically in range are embedded fallibly: `pixel_setRGB`
  returns `none` exactly when the C code would index out of bounds.
* `CALLBACK_PIXEL_FRAME::invokeCallback()` lives in `callbacks.h`.
  Modelled from the spec: under fault-free timing every invocation runs the
  frame hook once, so the model counts invocations in
  `frameCallbackCount`.
-/

/-- `PIXEL_COUNT` from pixel.h: the tile has 6 RGB pixels. -/
def PIXEL_COUNT : Nat := 6

/-- The observable state of the driver: the pixel color store
(`rawValueR/G/B`), the sequencer variables (`currentPixel`, `phase`), the
pin levels touched by the driver and the timer registers it programs. -/
@[ext]
structure PixState where
  rawValueR : Fin 6 → Nat
  rawValueG : Fin 6 → Nat
  rawValueB : Fin 6 → Nat
  currentPixel : Nat
  phase : Nat
  anodes : Fin 6 → Bool
  blueSink : Bool
  OCR0A : Nat
  OCR0B : Nat
  OCR2B : Nat
  TCNT0 : Nat
  TCNT2 : Nat
  TCCR0A : Nat
  TCCR0B : Nat
  TCCR2A : Nat
  TCCR2B : Nat
  TIMSK0 : Nat
  frameCallbackCount : Nat

/-- The `gamma8` table from pixel.cpp (256 entries, the adafruit
gamma-correction table). -/
def gamma8 : List Nat := [
  0,  0,  0,  0,  0,  0,  0,  0,  0,  0,  0,  0,  0,  0,  0,  0,
  0,  0,  0,  0,  0,  0,  0,  0,  0,  0,  0,  0,  1,  1,  1,  1,
  1,  1,  1,  1,  1,  1,  1,  1,  1,  2,  2,  2,  2,  2,  2,  2,
  2,  3,  3,  3,  3,  3,  3,  3,  4,  4,  4,  4,  4,  5,  5,  5,
  5,  6,  6,  6,  6,  7,  7,  7,  7,  8,  8,  8,  9,  9,  9, 10,
  10, 10, 11, 11, 11, 12, 12, 13, 13, 13, 14, 14, 15, 15, 16, 16,
  17, 17, 18, 18, 19, 19, 20, 20, 21, 21, 22, 22, 23, 24, 24, 25,
  25, 26, 27, 27, 28, 29, 29, 30, 31, 32, 32, 33, 34, 35, 35, 36,
  37, 38, 39, 39, 40, 41, 42, 43, 44, 45, 46, 47, 48, 49, 50, 50,
  51, 52, 54, 55, 56, 57, 58, 59, 60, 61, 62, 63, 64, 66, 67, 68,
  69, 70, 72, 73, 74, 75, 77, 78, 79, 81, 82, 83, 85, 86, 87, 89,
  90, 92, 93, 95, 96, 98, 99,101,102,104,105,107,109,110,112,114,
  115,117,119,120,122,124,126,127,129,131,133,135,137,138,140,142,
  144,146,148,150,152,154,156,158,160,162,164,167,169,171,173,175,
  177,180,182,184,186,189,191,193,196,198,200,203,205,208,210,213,
  215,218,220,223,225,228,231,233,236,239,241,244,247,249,252,255 ]

/-- Table lookup `pgm_read_byte(&gamma8[v])`.  In the C code the index has
type `uint8_t`, so it can never exceed 255; indices outside the table (which
never occur for byte inputs) default to 0. -/
def gammaVal (v : Nat) : Nat := gamma8.getD v 0

/-- Read of a color-store array at a `uint8_t` index (`rawValueX[i]`).  An
out-of-range index would be undefined behaviour in C; in every reachable
state of the interrupt handler the index is `currentPixel < 6` (see the C10
invariant), so the 0 default is never exercised. -/
def arrGet (a : Fin 6 → Nat) (i : Nat) : Nat :=
  if h : i < 6 then a ⟨i, h⟩ else 0

/-- `deactivateAnodes()`: drive all six anode lines low. -/
def deactivateAnodes (s : PixState) : PixState :=
  { s with anodes := fun _ => false }

/-- `activateAnode(line)`: the switch drives the matching anode high and
does nothing for a line number with no case. -/
def activateAnode (line : Nat) (s : PixState) : PixState :=
  { s with anodes := fun i => if i.val = line then true else s.anodes i }

/-- `activateAnode( currentPixel )` as called in phase 1 of the ISR. -/
def activateAnodeCurrent (s : PixState) : PixState :=
  activateAnode s.currentPixel s

/-- `SBI( BLUE_SINK_PORT , BLUE_SINK_BIT )`: sink high, charge pump idle. -/
def blueSinkHigh (s : PixState) : PixState :=
  { s with blueSink := true }

/-- Phase 0: `if (rawValueB[currentPixel] != 255) CBI(BLUE_SINK_PORT, BLUE_SINK_BIT);`
If the incoming pixel has any blue content, drive the sink low and start
charging the pump; otherwise leave the sink as it is. -/
def condChargePump (s : PixState) : PixState :=
  { s with blueSink :=
      if arrGet s.rawValueB s.currentPixel ≠ 255 then false else s.blueSink }

/-- Phase 0: `currentPixel++; if (currentPixel==PIXEL_COUNT) currentPixel=0;`
(the increment is a `uint8_t` increment). -/
def stepPixelAdvance (s : PixState) : PixState :=
  { s with currentPixel :=
      if (s.currentPixel + 1) % 256 = PIXEL_COUNT then 0
      else (s.currentPixel + 1) % 256 }

/-- `phase++` (a `uint8_t` increment). -/
def incPhase (s : PixState) : PixState :=
  { s with phase := (s.phase + 1) % 256 }

/-- Phase 4: `phase = 0`. -/
def phaseToZero (s : PixState) : PixState :=
  { s with phase := 0 }

/-- `CALLBACK_PIXEL_FRAME::invokeCallback()`.  Modelled from the spec: the
callback machinery itself is in callbacks.h (outside the sources); under
fault-free timing each invocation runs the frame hook once, so the model
counts invocations. -/
def invokeFrameCallback (s : PixState) : PixState :=
  { s with frameCallbackCount := s.frameCallbackCount + 1 }

/-- Phase 1: `OCR2B = rawValueB[currentPixel];` arm blue for the next PWM
window. -/
def loadBlueOCR (s : PixState) : PixState :=
  { s with OCR2B := arrGet s.rawValueB s.currentPixel }

/-- Phase 2: `OCR2B = 255;` blue off at the next overflow. -/
def clearBlueOCR (s : PixState) : PixState :=
  { s with OCR2B := 255 }

/-- Phase 2: `OCR0A = rawValueR[currentPixel];` arm red. -/
def loadRedOCR (s : PixState) : PixState :=
  { s with OCR0A := arrGet s.rawValueR s.currentPixel }

/-- Phase 3: `OCR0A = 255;` red off at the next overflow. -/
def clearRedOCR (s : PixState) : PixState :=
  { s with OCR0A := 255 }

/-- Phase 3: `OCR0B = rawValueG[currentPixel];` arm green. -/
def loadGreenOCR (s : PixState) : PixState :=
  { s with OCR0B := arrGet s.rawValueG s.currentPixel }

/-- Phase 4: `OCR0B = 255;` green off at the next overflow. -/
def clearGreenOCR (s : PixState) : PixState :=
  { s with OCR0B := 255 }

/-- Body of `case 0` of `pixel_isr`, in statement order. -/
def phase0Body (s : PixState) : PixState :=
  incPhase (condChargePump (stepPixelAdvance (deactivateAnodes s)))

/-- Body of `case 1` of `pixel_isr`, in statement order: sink high first,
only then activate the anode, then arm blue. -/
def phase1Body (s : PixState) : PixState :=
  incPhase (loadBlueOCR (activateAnodeCurrent (blueSinkHigh s)))

/-- Body of `case 2` of `pixel_isr`. -/
def phase2Body (s : PixState) : PixState :=
  incPhase (loadRedOCR (clearBlueOCR s))

/-- Body of `case 3` of `pixel_isr`. -/
def phase3Body (s : PixState) : PixState :=
  incPhase (loadGreenOCR (clearRedOCR s))

/-- Body of `case 4` of `pixel_isr`: green off, wrap the phase, invoke the
frame callback. -/
def phase4Body (s : PixState) : PixState :=
  invokeFrameCallback (phaseToZero (clearGreenOCR s))

/-- `pixel_isr()`: one timer-overflow interrupt.  The switch has no default
case, so a phase outside 0..4 (never reachable) changes nothing. -/
def pixel_isr (s : PixState) : PixState :=
  match s.phase with
  | 0 => phase0Body s
  | 1 => phase1Body s
  | 2 => phase2Body s
  | 3 => phase3Body s
  | 4 => phase4Body s
  | _ => s

/-- The intermediate states of one `pixel_isr` call, in statement order:
the entry state, the state after each hardware-visible statement of the
dispatched case, ending with the exit state.  Used to check the pump/anode
ordering invariant at every micro-step, not just between interrupts. -/
def isrTrace (s : PixState) : List PixState :=
  match s.phase with
  | 0 => [s, deactivateAnodes s, stepPixelAdvance (deactivateAnodes s),
          condChargePump (stepPixelAdvance (deactivateAnodes s)), phase0Body s]
  | 1 => [s, blueSinkHigh s, activateAnodeCurrent (blueSinkHigh s),
          loadBlueOCR (activateAnodeCurrent (blueSinkHigh s)), phase1Body s]
  | 2 => [s, clearBlueOCR s, loadRedOCR (clearBlueOCR s), phase2Body s]
  | 3 => [s, clearRedOCR s, loadGreenOCR (clearRedOCR s), phase3Body s]
  | 4 => [s, clearGreenOCR s, phaseToZero (clearGreenOCR s), phase4Body s]
  | _ => [s]

/-- Write of one pixel's three duty values, with the index already known to
be in range: the three assignments of `pixel_setRGB`. -/
def setRGBat (p : Fin 6) (r g b : Nat) (s : PixState) : PixState :=
  { s with
    rawValueR := Function.update s.rawValueR p (255 - gammaVal r / 3),
    rawValueG := Function.update s.rawValueG p (255 - gammaVal g / 2),
    rawValueB := Function.update s.rawValueB p (255 - gammaVal b / 2) }

/-- `pixel_setRGB(p, r, g, b)`: the C code indexes `rawValueR[p]` etc.
directly, so the embedding fails (returns `none`) exactly when `p` is out
of range of the three 6-entry arrays. -/
def pixel_setRGB (p r g b : Nat) (s : PixState) : Option PixState :=
  if h : p < PIXEL_COUNT then some (setRGBat ⟨p, h⟩ r g b s) else none

/-- The faces iterated by `FOREACH_FACE`.  Modelled from the spec:
`FOREACH_FACE` comes from blinkcore.h (outside the sources); the spec says
`setAll` "applies this to every pixel", i.e. indices 0..5 in order. -/
def faceList : List (Fin 6) := [0, 1, 2, 3, 4, 5]

/-- `pixel_SetAllRGB(r, g, b)`: `FOREACH_FACE(i) pixel_setRGB(i, r, g, b)`. -/
def pixel_SetAllRGB (r g b : Nat) (s : PixState) : PixState :=
  faceList.foldl (fun t i => setRGBat i r g b t) s

/-- `setupPixelPins()`: of the modelled state this touches only the blue
sink, which it drives high (pump idle, blue off).  The DDR setup and the
R/G/B cathode PORT writes are outside the modelled state. -/
def setupPixelPins (s : PixState) : PixState :=
  { s with blueSink := true }

/-- `setupTimers()`: `TIMSK0 = _BV(TOIE0)` (bit 0). -/
def setupTimers (s : PixState) : PixState :=
  { s with TIMSK0 := 1 }

/-- `pixel_init()`. -/
def pixel_init (s : PixState) : PixState :=
  setupTimers (setupPixelPins s)

/-- `pixelTimersOn()`, in statement order.  Register values:
`TCCR0A = _BV(WGM00)|_BV(WGM01)|_BV(COM0A1)|_BV(COM0B1) = 1+2+128+32 = 163`,
`TCCR2A = _BV(COM2B1)|_BV(WGM21)|_BV(WGM20) = 32+2+1 = 35`,
`TCCR0B = _BV(CS01) = 2`, `TCCR2B = _BV(CS21) = 2`.  The two
`SBI(TCCR0B, FOC0A/FOC0B)` and `SBI(TCCR2B, FOC2B)` strobes set bits 7/6
that the final whole-register writes below overwrite. -/
def pixelTimersOn (s : PixState) : PixState :=
  let s1 := { s with OCR0A := 255, OCR0B := 255, TCNT0 := 0 }
  let s2 := { s1 with TCCR0B := s1.TCCR0B ||| 128 }
  let s3 := { s2 with TCCR0B := s2.TCCR0B ||| 64 }
  let s4 := { s3 with TCCR0A := 163 }
  let s5 := { s4 with TCCR2A := 35 }
  let s6 := { s5 with OCR2B := 255, TCNT2 := 0 }
  let s7 := { s6 with TCCR2B := s6.TCCR2B ||| 64 }
  let s8 := { s7 with TCCR0B := 2 }
  { s8 with TCCR2B := 2 }

/-- `pixelTimerOff()`, in statement order: stop Timer0, deactivate all
anodes, drive the blue sink high, stop Timer2, release both timers'
output-compare configuration. -/
def pixelTimerOff (s : PixState) : PixState :=
  let s1 := { s with TCCR0B := 0 }
  let s2 := deactivateAnodes s1
  let s3 := blueSinkHigh s2
  let s4 := { s3 with TCCR2B := 0 }
  let s5 := { s4 with TCCR0A := 0 }
  { s5 with TCCR2A := 0 }

/-- `pixel_disable()`. -/
def pixel_disable (s : PixState) : PixState :=
  pixelTimerOff s

/-- `pixel_enable()`: reset the color store to all-off, then restart the
timers. -/
def pixel_enable (s : PixState) : PixState :=
  pixelTimersOn (pixel_SetAllRGB 0 0 0 s)

/-- The state at power-up, before `pixel_init`: static variables are
zero-initialised, pins are low. -/
def defaultState : PixState where
  rawValueR := fun _ => 0
  rawValueG := fun _ => 0
  rawValueB := fun _ => 0
  currentPixel := 0
  phase := 0
  anodes := fun _ => false
  blueSink := false
  OCR0A := 0
  OCR0B := 0
  OCR2B := 0
  TCNT0 := 0
  TCNT2 := 0
  TCCR0A := 0
  TCCR0B := 0
  TCCR2A := 0
  TCCR2B := 0
  TIMSK0 := 0
  frameCallbackCount := 0

/-- The state from which refresh starts: `pixel_init()` followed by
`pixel_enable()` (the sequencer sits at pixel 0, phase 0). -/
def initState : PixState :=
  pixel_enable (pixel_init defaultState)

/-- The state after `n` fault-free timer-overflow interrupts from
`initState`, with no foreground activity in between. -/
def stepN : Nat → PixState
  | 0 => initState
  | n + 1 => pixel_isr (stepN n)

/-- The pump/anode exclusion, as a boolean: the state is safe when the
sink is high (pump idle) or every anode is inactive. -/
def pumpSafeB (s : PixState) : Bool :=
  s.blueSink || decide (∀ i : Fin 6, s.anodes i = false)

/-- States reachable from `initState` by any interleaving of interrupts and
foreground entry points. -/
inductive Reachable : PixState → Prop
  | init : Reachable initState
  | isr {s} : Reachable s → Reachable (pixel_isr s)
  | set {s t} (p r g b : Nat) : Reachable s → pixel_setRGB p r g b s = some t →
      Reachable t
  | setAll {s} (r g b : Nat) : Reachable s → Reachable (pixel_SetAllRGB r g b s)
  | disable {s} : Reachable s → Reachable (pixel_disable s)
  | enable {s} : Reachable s → Reachable (pixel_enable s)

/-! ## Helper lemmas -/

theorem pixel_isr_of_phase0 (s : PixState) (h : s.phase = 0) :
    pixel_isr s = phase0Body s := by
  unfold pixel_isr; rw [h]

theorem pixel_isr_of_phase1 (s : PixState) (h : s.phase = 1) :
    pixel_isr s = phase1Body s := by
  unfold pixel_isr; rw [h]

theorem pixel_isr_of_phase2 (s : PixState) (h : s.phase = 2) :
    pixel_isr s = phase2Body s := by
  unfold pixel_isr; rw [h]

theorem pixel_isr_of_phase3 (s : PixState) (h : s.phase = 3) :
    pixel_isr s = phase3Body s := by
  unfold pixel_isr; rw [h]

theorem pixel_isr_of_phase4 (s : PixState) (h : s.phase = 4) :
    pixel_isr s = phase4Body s := by
  unfold pixel_isr; rw [h]

/-- Closed-form trajectory of the fault-free interrupt sequence: after `n`
interrupts the phase is `n % 5`, the pixel index is `⌈n/5⌉ % 6` (it
advances during the phase-0 interrupt of each 5-interrupt block), and the
frame callback has been invoked `⌊n/5⌋` times. -/
theorem stepN_spec (n : Nat) :
    (stepN n).phase = n % 5 ∧
    (stepN n).currentPixel = ((n + 4) / 5) % 6 ∧
    (stepN n).frameCallbackCount = n / 5 := by
  induction n with
  | zero => exact ⟨rfl, rfl, rfl⟩
  | succ n ih =>
    obtain ⟨hp, hc, hf⟩ := ih
    have h5 : n % 5 = 0 ∨ n % 5 = 1 ∨ n % 5 = 2 ∨ n % 5 = 3 ∨ n % 5 = 4 := by
      omega
    have hstep : stepN (n + 1) = pixel_isr (stepN n) := rfl
    rcases h5 with h | h | h | h | h
    · rw [hstep, pixel_isr_of_phase0 _ (by rw [hp, h])]
      simp only [phase0Body, incPhase, condChargePump, stepPixelAdvance,
        deactivateAnodes, PIXEL_COUNT]
      refine ⟨?_, ?_, ?_⟩
      · rw [hp]; omega
      · rw [hc]; split <;> omega
      · rw [hf]; omega
    · rw [hstep, pixel_isr_of_phase1 _ (by rw [hp, h])]
      simp only [phase1Body, incPhase, loadBlueOCR, activateAnodeCurrent,
        activateAnode, blueSinkHigh]
      exact ⟨by rw [hp]; omega, by rw [hc]; congr 1; omega, by rw [hf]; omega⟩
    · rw [hstep, pixel_isr_of_phase2 _ (by rw [hp, h])]
      simp only [phase2Body, incPhase, loadRedOCR, clearBlueOCR]
      exact ⟨by rw [hp]; omega, by rw [hc]; congr 1; omega, by rw [hf]; omega⟩
    · rw [hstep, pixel_isr_of_phase3 _ (by rw [hp, h])]
      simp only [phase3Body, incPhase, loadGreenOCR, clearRedOCR]
      exact ⟨by rw [hp]; omega, by rw [hc]; congr 1; omega, by rw [hf]; omega⟩
    · rw [hstep, pixel_isr_of_phase4 _ (by rw [hp, h])]
      simp only [phase4Body, invokeFrameCallback, phaseToZero, clearGreenOCR]
      exact ⟨by omega, by rw [hc]; congr 1; omega, by rw [hf]; omega⟩

/-- The pump/anode exclusion as a proposition: whenever the sink is driven
low (pump charging), every anode is inactive. -/
def pumpSafe (s : PixState) : Prop :=
  s.blueSink = false → ∀ i : Fin 6, s.anodes i = false

theorem pumpSafeB_eq_true (s : PixState) : pumpSafeB s = true ↔ pumpSafe s := by
  cases hb : s.blueSink <;> simp [pumpSafeB, pumpSafe, hb]

/-- Every intermediate state of one interrupt launched from a pump-safe
state is pump-safe: charging only ever starts in phase 0 after
`deactivateAnodes()`, and phase 1 drives the sink high strictly before
`activateAnode()`. -/
theorem isrTrace_pumpSafe (s : PixState) (h : pumpSafe s) :
    ∀ t ∈ isrTrace s, pumpSafe t := by
  intro t ht
  unfold isrTrace at ht
  split at ht
  · simp only [List.mem_cons, List.not_mem_nil, or_false] at ht
    rcases ht with rfl | rfl | rfl | rfl | rfl
    · exact h
    · exact fun _ i => rfl
    · exact fun _ i => rfl
    · exact fun _ i => rfl
    · exact fun _ i => rfl
  · simp only [List.mem_cons, List.not_mem_nil, or_false] at ht
    rcases ht with rfl | rfl | rfl | rfl | rfl
    · exact h
    · intro hb
      simp [blueSinkHigh] at hb
    · intro hb
      simp [activateAnodeCurrent, activateAnode, blueSinkHigh] at hb
    · intro hb
      simp [loadBlueOCR, activateAnodeCurrent, activateAnode, blueSinkHigh] at hb
    · intro hb
      simp [phase1Body, incPhase, loadBlueOCR, activateAnodeCurrent,
        activateAnode, blueSinkHigh] at hb
  · simp only [List.mem_cons, List.not_mem_nil, or_false] at ht
    rcases ht with rfl | rfl | rfl | rfl
    · exact h
    · exact h
    · exact h
    · exact h
  · simp only [List.mem_cons, List.not_mem_nil, or_false] at ht
    rcases ht with rfl | rfl | rfl | rfl
    · exact h
    · exact h
    · exact h
    · exact h
  · simp only [List.mem_cons, List.not_mem_nil, or_false] at ht
    rcases ht with rfl | rfl | rfl | rfl
    · exact h
    · exact h
    · exact h
    · exact h
  · simp only [List.mem_cons, List.not_mem_nil, or_false] at ht
    rcases ht with rfl
    exact h

/-- One whole interrupt preserves pump-safety. -/
theorem pixel_isr_pumpSafe (s : PixState) (h : pumpSafe s) :
    pumpSafe (pixel_isr s) := by
  unfold pixel_isr
  split
  · exact fun _ i => rfl
  · intro hb
    simp [phase1Body, incPhase, loadBlueOCR, activateAnodeCurrent,
      activateAnode, blueSinkHigh] at hb
  · exact h
  · exact h
  · exact h
  · exact h

/-- Every reachable state is pump-safe. -/
theorem reachable_pumpSafe : ∀ s, Reachable s → pumpSafe s := by
  intro s hs
  induction hs with
  | init =>
    intro hb
    exact absurd hb (by decide)
  | isr _ ih => exact pixel_isr_pumpSafe _ ih
  | set p r g b hs ht ih =>
    unfold pixel_setRGB at ht
    split at ht
    · cases ht
      exact ih
    · cases ht
  | setAll r g b _ ih => exact ih
  | disable _ ih => exact fun _ i => rfl
  | enable _ ih => exact ih

/-! ## Claim theorems -/

/-- Claim C1: for every reachable state of the phase sequencer, and at every
intermediate point of the interrupt that fires there, the charge-pump drive
is never in its charging state (sink low) while any anode is active:
charging can begin only in phase 0, after `deactivateAnodes()`, and phase 1
returns the sink to idle (high) strictly before the current pixel's anode is
activated — so no micro-step of the trace ever shows charging together with
an active anode. -/
theorem C1_pump_never_charging_while_anode_active (s : PixState)
    (hs : Reachable s) : ((isrTrace s).all pumpSafeB) = true := by
  rw [List.all_eq_true]
  intro t ht
  rw [pumpSafeB_eq_true]
  exact isrTrace_pumpSafe s (reachable_pumpSafe s hs) t ht

/-- Witness for C1 at the concrete initial state. -/
theorem C1_pump_never_charging_while_anode_active_witness :
    ((isrTrace initState).all pumpSafeB) = true :=
  C1_pump_never_charging_while_anode_active initState Reachable.init

/-- Claim C10: one `pixel_isr` invocation from any state with `phase` in
0..4 and `currentPixel` in 0..5 keeps both variables in range and never
modifies the three color-store arrays. -/
theorem C10_isr_preserves_ranges_and_store (s : PixState)
    (hph : s.phase < 5) (hpx : s.currentPixel < 6) :
    (pixel_isr s).phase < 5 ∧ (pixel_isr s).currentPixel < 6 ∧
    (pixel_isr s).rawValueR = s.rawValueR ∧
    (pixel_isr s).rawValueG = s.rawValueG ∧
    (pixel_isr s).rawValueB = s.rawValueB := by
  have h5 : s.phase = 0 ∨ s.phase = 1 ∨ s.phase = 2 ∨ s.phase = 3 ∨
      s.phase = 4 := by omega
  rcases h5 with h | h | h | h | h
  · rw [pixel_isr_of_phase0 _ h]
    refine ⟨?_, ?_, rfl, rfl, rfl⟩
    · simp only [phase0Body, incPhase, condChargePump, stepPixelAdvance,
        deactivateAnodes]
      omega
    · simp only [phase0Body, incPhase, condChargePump, stepPixelAdvance,
        deactivateAnodes, PIXEL_COUNT]
      split <;> omega
  · rw [pixel_isr_of_phase1 _ h]
    refine ⟨?_, hpx, rfl, rfl, rfl⟩
    simp only [phase1Body, incPhase, loadBlueOCR, activateAnodeCurrent,
      activateAnode, blueSinkHigh]
    omega
  · rw [pixel_isr_of_phase2 _ h]
    refine ⟨?_, hpx, rfl, rfl, rfl⟩
    simp only [phase2Body, incPhase, loadRedOCR, clearBlueOCR]
    omega
  · rw [pixel_isr_of_phase3 _ h]
    refine ⟨?_, hpx, rfl, rfl, rfl⟩
    simp only [phase3Body, incPhase, loadGreenOCR, clearRedOCR]
    omega
  · rw [pixel_isr_of_phase4 _ h]
    refine ⟨?_, hpx, rfl, rfl, rfl⟩
    simp only [phase4Body, invokeFrameCallback, phaseToZero, clearGreenOCR]
    omega

/-- Witness for C10 at the concrete initial state. -/
theorem C10_isr_preserves_ranges_and_store_witness :
    (pixel_isr initState).phase < 5 ∧ (pixel_isr initState).currentPixel < 6 ∧
    (pixel_isr initState).rawValueR = initState.rawValueR ∧
    (pixel_isr initState).rawValueG = initState.rawValueG ∧
    (pixel_isr initState).rawValueB = initState.rawValueB :=
  C10_isr_preserves_ranges_and_store initState (by decide) (by decide)

/-- Claim C6 counterexample: starting from (pixel 0, phase 0), the claimed
round-robin order predicts the pair (pixel 0, phase 1) after the first
interrupt, but the handler advances `currentPixel` during phase 0, so the
state after one interrupt is (pixel 1, phase 1). -/
theorem C6_first_interrupt_counterexample :
    (stepN 1).currentPixel = 1 ∧ (stepN 1).phase = 1 ∧
    ¬ ((stepN 1).currentPixel = 0) := by decide

/-- Claim C6 as amended: each interrupt advances exactly one phase (the
phase after `k` interrupts is `k % 5`), and the pixel index advances during
the phase-0 interrupt of each 5-interrupt block, so after `k` interrupts the
pixel is `⌈k/5⌉ % 6`: the visited pairs follow the round-robin order
beginning at pixel 1 (pixels 1,2,3,4,5,0 repeated), each pixel seen with
phases 1,2,3,4,0 in that order, with no skips or repeats. -/
theorem C6_round_robin_shifted (k : Nat) :
    (stepN k).phase = k % 5 ∧ (stepN k).currentPixel = ((k + 4) / 5) % 6 :=
  ⟨(stepN_spec k).1, (stepN_spec k).2.1⟩

/-- Claim C2 counterexample: over the first 5×N = 30 interrupts the frame
callback is invoked 6 times, not exactly once, and the first invocation
already happens after 5 interrupts, before all 6 pixels have completed
phase 4. -/
theorem C2_six_callbacks_per_pass_counterexample :
    (stepN 30).frameCallbackCount = 6 ∧ (stepN 30).frameCallbackCount ≠ 1 ∧
    (stepN 5).frameCallbackCount = 1 := by decide

/-- Claim C2 as amended: the frame callback is invoked at the end of every
pixel's 5-phase cycle — after `n` fault-free interrupts it has run `⌊n/5⌋`
times, i.e. N = 6 invocations per complete pass over all N pixels, not one. -/
theorem C2_callback_once_per_pixel_cycle (n : Nat) :
    (stepN n).frameCallbackCount = n / 5 :=
  (stepN_spec n).2.2

/-- Closed form of `pixel_enable`: the color store is overwritten with the
all-off sentinel and the timer registers are programmed to their fixed
startup values; everything else (in particular `phase`, `currentPixel`,
`anodes`, `blueSink`) is untouched. -/
theorem pixel_enable_eq (s : PixState) :
    pixel_enable s = { s with
      rawValueR := fun _ => 255, rawValueG := fun _ => 255,
      rawValueB := fun _ => 255,
      OCR0A := 255, OCR0B := 255, OCR2B := 255, TCNT0 := 0, TCNT2 := 0,
      TCCR0A := 163, TCCR0B := 2, TCCR2A := 35, TCCR2B := 2 } := by
  apply PixState.ext <;> first
    | rfl
    | (funext i; fin_cases i <;> rfl)

/-- A state in which pixel 0 was set to full red: its stored red duty is
255 − gamma(255)/3 = 170. -/
def c3State : PixState := (pixel_setRGB 0 255 0 0 initState).getD initState

/-- Claim C3 counterexample: after `setColor(0,255,0,0)` the stored red
duty of pixel 0 is 170, but `disable()` followed by `enable()` leaves it at
the all-off sentinel 255 — `pixel_enable` rewrites the whole store via
`pixel_SetAllRGB(0,0,0)`, so the store is not preserved. -/
theorem C3_enable_resets_store_counterexample :
    c3State.rawValueR 0 = 170 ∧
    (pixel_enable (pixel_disable c3State)).rawValueR 0 = 255 ∧
    (170 : Nat) ≠ 255 := by decide

/-- Claim C3 as amended: `disable()` leaves the Pixel Color Store
unchanged, but the subsequent `enable()` resets every channel of every
pixel to the all-off sentinel 255, so colors do not persist across a
disable/enable cycle and must be rewritten with `setColor`. -/
theorem C3_disable_keeps_enable_resets_store (s : PixState) :
    ((pixel_disable s).rawValueR = s.rawValueR ∧
     (pixel_disable s).rawValueG = s.rawValueG ∧
     (pixel_disable s).rawValueB = s.rawValueB) ∧
    ∀ i : Fin 6,
      (pixel_enable (pixel_disable s)).rawValueR i = 255 ∧
      (pixel_enable (pixel_disable s)).rawValueG i = 255 ∧
      (pixel_enable (pixel_disable s)).rawValueB i = 255 := by
  refine ⟨⟨rfl, rfl, rfl⟩, ?_⟩
  intro i
  rw [pixel_enable_eq]
  exact ⟨rfl, rfl, rfl⟩

/-- Claim C8: both lifecycle entry points are idempotent — a second
`enable()` (or `disable()`) in a row produces exactly the same state as the
first one, color store, sequencer variables and modelled registers
included. -/
theorem C8_enable_disable_idempotent (s : PixState) :
    pixel_enable (pixel_enable s) = pixel_enable s ∧
    pixel_disable (pixel_disable s) = pixel_disable s := by
  constructor
  · rw [pixel_enable_eq s, pixel_enable_eq]
  · rfl

set_option maxRecDepth 4000 in
/-- Adjacent-entry monotonicity of the gamma table. -/
theorem gammaVal_succ_le : ∀ i < 255, gammaVal i ≤ gammaVal (i + 1) := by
  decide

/-- The gamma table is monotone (non-decreasing) over its 256 entries. -/
theorem gammaVal_mono : ∀ j ≤ 255, ∀ i ≤ j, gammaVal i ≤ gammaVal j := by
  intro j
  induction j with
  | zero =>
    intro _ i hi
    have h0 : i = 0 := Nat.le_zero.mp hi
    rw [h0]
  | succ j ih =>
    intro hj i hi
    rcases Nat.eq_or_lt_of_le hi with h | h
    · rw [h]
    · exact le_trans (ih (by omega) i (by omega)) (gammaVal_succ_le j (by omega))

set_option maxRecDepth 4000 in
/-- Every gamma table value fits in a byte. -/
theorem gammaVal_le_255 : ∀ v, gammaVal v ≤ 255 := by
  have hin : ∀ v < 256, gammaVal v ≤ 255 := by decide
  intro v
  rcases Nat.lt_or_ge v 256 with h | h
  · exact hin v h
  · unfold gammaVal
    rw [List.getD_eq_default]
    · omega
    · have hlen : gamma8.length = 256 := rfl
      omega

/-- Claim C4, formalised the way it is stated: there are three pairwise
distinct per-channel divisors through which `pixel_setRGB` computes all
three stored duty values as 255 − gamma(v)/d. -/
def specC4_distinctDivisors : Prop :=
  ∃ dR dG dB : Nat, dR ≠ dG ∧ dG ≠ dB ∧ dR ≠ dB ∧
    ∀ (p r g b : Nat) (hp : p < PIXEL_COUNT), r < 256 → g < 256 → b < 256 →
      ∀ s t : PixState, pixel_setRGB p r g b s = some t →
        t.rawValueR ⟨p, hp⟩ = 255 - gammaVal r / dR ∧
        t.rawValueG ⟨p, hp⟩ = 255 - gammaVal g / dG ∧
        t.rawValueB ⟨p, hp⟩ = 255 - gammaVal b / dB

/-- Helper: the only divisor compatible with the stored value 254 at a
gamma value of 2 is 2 itself. -/
theorem divisor_must_be_two (d : Nat) (h : (254 : Nat) = 255 - 2 / d) :
    d = 2 := by
  rcases d with _ | _ | _ | d
  · simp at h
  · simp at h
  · rfl
  · rw [Nat.div_eq_of_lt (by omega)] at h
    omega

set_option maxRecDepth 4000 in
/-- Claim C4 counterexample: no triple of pairwise distinct divisors can
reproduce what the code computes, because the green and the blue channel
demonstrably use the very same divisor 2 (at input 41 the gamma value is 2
and the stored duty is 254 on both channels, which forces d = 2 exactly). -/
theorem C4_divisors_not_distinct_counterexample : ¬ specC4_distinctDivisors := by
  rintro ⟨dR, dG, dB, hRG, hGB, hRB, hall⟩
  have h := hall 0 0 41 41 (by decide) (by decide) (by decide) (by decide)
    defaultState (setRGBat 0 0 41 41 defaultState) rfl
  obtain ⟨-, hG, hB⟩ := h
  have eG : (setRGBat 0 0 41 41 defaultState).rawValueG ⟨0, by decide⟩ =
      254 := by decide
  have eB : (setRGBat 0 0 41 41 defaultState).rawValueB ⟨0, by decide⟩ =
      254 := by decide
  have hG2 : (254 : Nat) = 255 - gammaVal 41 / dG := eG.symm.trans hG
  have hB2 : (254 : Nat) = 255 - gammaVal 41 / dB := eB.symm.trans hB
  rw [show gammaVal 41 = 2 from rfl] at hG2 hB2
  exact hGB ((divisor_must_be_two dG hG2).trans (divisor_must_be_two dB hB2).symm)

set_option maxRecDepth 4000 in
/-- Claim C4 as amended: `setColor` stores exactly 255 − gamma(v)/d per
channel, where gamma is the fixed monotone 256-entry table, but the
attenuation divisors are 3 for red and 2 for both green and blue — the red
divisor is distinct from the other two, while green and blue share theirs. -/
theorem C4_gamma_formula_divisors_3_2_2 (p r g b : Nat) (hp : p < PIXEL_COUNT)
    (hr : r < 256) (hg : g < 256) (hb : b < 256) (s t : PixState)
    (ht : pixel_setRGB p r g b s = some t) :
    (t.rawValueR ⟨p, hp⟩ = 255 - gammaVal r / 3 ∧
     t.rawValueG ⟨p, hp⟩ = 255 - gammaVal g / 2 ∧
     t.rawValueB ⟨p, hp⟩ = 255 - gammaVal b / 2) ∧
    gamma8.length = 256 ∧
    (∀ i j : Nat, i ≤ j → j ≤ 255 → gammaVal i ≤ gammaVal j) := by
  unfold pixel_setRGB at ht
  rw [dif_pos hp] at ht
  injection ht with ht
  subst ht
  refine ⟨⟨?_, ?_, ?_⟩, rfl, fun i j hij hj => gammaVal_mono j hj i hij⟩
  · simp [setRGBat]
  · simp [setRGBat]
  · simp [setRGBat]

set_option maxRecDepth 4000 in
/-- Witness for C4 as amended, at pixel 0 and full-brightness inputs. -/
theorem C4_gamma_formula_witness :
    (((setRGBat 0 255 255 255 defaultState).rawValueR 0 =
        255 - gammaVal 255 / 3 ∧
      (setRGBat 0 255 255 255 defaultState).rawValueG 0 =
        255 - gammaVal 255 / 2 ∧
      (setRGBat 0 255 255 255 defaultState).rawValueB 0 =
        255 - gammaVal 255 / 2) ∧
     gamma8.length = 256 ∧
     (∀ i j : Nat, i ≤ j → j ≤ 255 → gammaVal i ≤ gammaVal j)) :=
  C4_gamma_formula_divisors_3_2_2 0 255 255 255 (by decide) (by decide)
    (by decide) (by decide) defaultState (setRGBat 0 255 255 255 defaultState)
    rfl

set_option maxRecDepth 4000 in
/-- Claim C7 counterexample: input intensity 1 is higher than 0, yet on
every channel both inputs store the same duty 255 (the gamma table maps
both 0 and 1 to 0), so the duty is not *strictly* further from the off
sentinel for the higher input. -/
theorem C7_strict_monotonicity_counterexample :
    (0 : Nat) < 1 ∧
    ((pixel_setRGB 0 0 0 0 defaultState).getD defaultState).rawValueR 0 = 255 ∧
    ((pixel_setRGB 0 1 1 1 defaultState).getD defaultState).rawValueR 0 = 255 ∧
    ¬ (255 - ((pixel_setRGB 0 0 0 0 defaultState).getD defaultState).rawValueR 0
        < 255 -
          ((pixel_setRGB 0 1 1 1 defaultState).getD defaultState).rawValueR 0) ∧
    ((pixel_setRGB 0 0 0 0 defaultState).getD defaultState).rawValueG 0 =
      ((pixel_setRGB 0 1 1 1 defaultState).getD defaultState).rawValueG 0 ∧
    ((pixel_setRGB 0 0 0 0 defaultState).getD defaultState).rawValueB 0 =
      ((pixel_setRGB 0 1 1 1 defaultState).getD defaultState).rawValueB 0 := by
  decide

/-- Claim C7 as amended: the stored duty values are a deterministic
function of the inputs alone (two calls with the same inputs against any
two prior states store identical values), and per channel they are weakly
monotone in brightness — a higher input intensity yields a duty value at
least as far from the off sentinel 255, with equality possible on the gamma
table's plateaus. -/
theorem C7_deterministic_and_weakly_monotone :
    (∀ (p r g b : Nat) (hp : p < PIXEL_COUNT) (s s2 t t2 : PixState),
        pixel_setRGB p r g b s = some t → pixel_setRGB p r g b s2 = some t2 →
        t.rawValueR ⟨p, hp⟩ = t2.rawValueR ⟨p, hp⟩ ∧
        t.rawValueG ⟨p, hp⟩ = t2.rawValueG ⟨p, hp⟩ ∧
        t.rawValueB ⟨p, hp⟩ = t2.rawValueB ⟨p, hp⟩) ∧
    (∀ (p r g b r2 g2 b2 : Nat) (hp : p < PIXEL_COUNT),
        r ≤ r2 → g ≤ g2 → b ≤ b2 → r2 ≤ 255 → g2 ≤ 255 → b2 ≤ 255 →
        ∀ s s2 t t2 : PixState,
          pixel_setRGB p r g b s = some t →
          pixel_setRGB p r2 g2 b2 s2 = some t2 →
          255 - t.rawValueR ⟨p, hp⟩ ≤ 255 - t2.rawValueR ⟨p, hp⟩ ∧
          255 - t.rawValueG ⟨p, hp⟩ ≤ 255 - t2.rawValueG ⟨p, hp⟩ ∧
          255 - t.rawValueB ⟨p, hp⟩ ≤ 255 - t2.rawValueB ⟨p, hp⟩) := by
  constructor
  · intro p r g b hp s s2 t t2 ht ht2
    unfold pixel_setRGB at ht ht2
    rw [dif_pos hp] at ht ht2
    injection ht with ht
    injection ht2 with ht2
    subst ht
    subst ht2
    refine ⟨?_, ?_, ?_⟩ <;> simp [setRGBat]
  · intro p r g b r2 g2 b2 hp hr hg hb hr2 hg2 hb2 s s2 t t2 ht ht2
    unfold pixel_setRGB at ht ht2
    rw [dif_pos hp] at ht ht2
    injection ht with ht
    injection ht2 with ht2
    subst ht
    subst ht2
    have mR : gammaVal r ≤ gammaVal r2 := gammaVal_mono r2 hr2 r hr
    have mG : gammaVal g ≤ gammaVal g2 := gammaVal_mono g2 hg2 g hg
    have mB : gammaVal b ≤ gammaVal b2 := gammaVal_mono b2 hb2 b hb
    have bR : gammaVal r2 ≤ 255 := gammaVal_le_255 r2
    have bG : gammaVal g2 ≤ 255 := gammaVal_le_255 g2
    have bB : gammaVal b2 ≤ 255 := gammaVal_le_255 b2
    refine ⟨?_, ?_, ?_⟩ <;> simp [setRGBat] <;> omega

/-- Witness for C7 as amended: determinism at (0,10,20,30) against two
different prior states, and weak monotonicity from all-off to full
brightness. -/
theorem C7_deterministic_and_weakly_monotone_witness :
    ((setRGBat 0 10 20 30 defaultState).rawValueR 0 =
        (setRGBat 0 10 20 30 c3State).rawValueR 0 ∧
      (setRGBat 0 10 20 30 defaultState).rawValueG 0 =
        (setRGBat 0 10 20 30 c3State).rawValueG 0 ∧
      (setRGBat 0 10 20 30 defaultState).rawValueB 0 =
        (setRGBat 0 10 20 30 c3State).rawValueB 0) ∧
    (255 - (setRGBat 0 0 0 0 defaultState).rawValueR 0 ≤
        255 - (setRGBat 0 255 255 255 defaultState).rawValueR 0 ∧
      255 - (setRGBat 0 0 0 0 defaultState).rawValueG 0 ≤
        255 - (setRGBat 0 255 255 255 defaultState).rawValueG 0 ∧
      255 - (setRGBat 0 0 0 0 defaultState).rawValueB 0 ≤
        255 - (setRGBat 0 255 255 255 defaultState).rawValueB 0) :=
  ⟨C7_deterministic_and_weakly_monotone.1 0 10 20 30 (by decide) defaultState
      c3State (setRGBat 0 10 20 30 defaultState) (setRGBat 0 10 20 30 c3State)
      rfl rfl,
   C7_deterministic_and_weakly_monotone.2 0 0 0 0 255 255 255 (by decide)
      (by decide) (by decide) (by decide) (by decide) (by decide) (by decide)
      defaultState defaultState (setRGBat 0 0 0 0 defaultState)
      (setRGBat 0 255 255 255 defaultState) rfl rfl⟩

/-- Claim C9: for an in-range pixel index and byte inputs, `setColor`
cannot fail — the out-of-bounds branch of the embedded array indexing is
not taken and a state (no return value) is always produced. -/
theorem C9_setRGB_cannot_fail (p r g b : Nat) (s : PixState)
    (hp : p < PIXEL_COUNT) (hr : r < 256) (hg : g < 256) (hb : b < 256) :
    (pixel_setRGB p r g b s).isSome = true := by
  unfold pixel_setRGB
  rw [dif_pos hp]
  rfl

/-- Witness for C9 at the last pixel and full-brightness inputs. -/
theorem C9_setRGB_cannot_fail_witness :
    (pixel_setRGB 5 255 255 255 defaultState).isSome = true :=
  C9_setRGB_cannot_fail 5 255 255 255 defaultState (by decide) (by decide)
    (by decide) (by decide)

/-- A reachable phase-2 state with non-off blue: pixel 1 is set to full
blue (stored duty 128), then two interrupts fire. -/
def c5State : PixState :=
  pixel_isr (pixel_isr ((pixel_setRGB 1 0 0 255 initState).getD initState))

set_option maxRecDepth 4000 in
/-- Claim C5 counterexample: in a reachable phase-2 state whose current
pixel stores blue duty 128, the phase-2 interrupt programs the blue compare
register to 255 (blue off), not to the stored duty — the arming happens in
phase 1, one phase earlier than claimed. -/
theorem C5_phase_numbering_counterexample :
    c5State.phase = 2 ∧
    arrGet c5State.rawValueB c5State.currentPixel = 128 ∧
    (pixel_isr c5State).OCR2B = 255 ∧
    (pixel_isr c5State).OCR2B ≠ arrGet c5State.rawValueB c5State.currentPixel := by
  decide

/-- Claim C5 as amended: the blue compare register is programmed with the
current pixel's stored blue duty during phase 1 (together with the anode
activation, one full PWM period before blue is displayed in phase 2), and
blue is turned back off (compare = 255) during phase 2. -/
theorem C5_blue_armed_phase1_cleared_phase2 (s : PixState) :
    (s.phase = 1 → (pixel_isr s).OCR2B = arrGet s.rawValueB s.currentPixel) ∧
    (s.phase = 2 → (pixel_isr s).OCR2B = 255) := by
  constructor
  · intro h
    rw [pixel_isr_of_phase1 _ h]
    rfl
  · intro h
    rw [pixel_isr_of_phase2 _ h]
    rfl

/-- Witness for C5 as amended, on the concrete states reached after one and
after two interrupts. -/
theorem C5_blue_armed_phase1_cleared_phase2_witness :
    (pixel_isr (stepN 1)).OCR2B =
      arrGet (stepN 1).rawValueB (stepN 1).currentPixel ∧
    (pixel_isr (stepN 2)).OCR2B = 255 :=
  ⟨(C5_blue_armed_phase1_cleared_phase2 (stepN 1)).1 rfl,
   (C5_blue_armed_phase1_cleared_phase2 (stepN 2)).2 rfl⟩
